import Mathlib

/-!
Verification of the option-analytics core (Black-Scholes pricing, Greeks,
per-contract metrics pipeline, batch search orchestrator) against its
natural-language specification.

Numbers are modelled as exact reals (the source computes with JS numbers);
the one JS `Infinity` value that the mock pipeline stores in `maxProfit`
is modelled with `EReal`.  Ambient effects are made explicit: the wall
clock becomes a `now` parameter, `Math.random()` becomes an explicit draw
parameter, and the HTTP fetch becomes a `String → Option SymbolData`
collaborator function.  Date-string parsing (`new Date(s + 'T16:00:00-05:00')`)
is external library behaviour; the parsed epoch-milliseconds timestamp is
taken as the `expiration` input.
-/

set_option maxHeartbeats 1600000

inductive OptionType where
  | call
  | put
deriving DecidableEq

inductive StrategyType where
  | coveredCall
  | cashSecuredPut
  | speculative
deriving DecidableEq

inductive PriceSource where
  | last
  | mid
  | bid
  | ask
deriving DecidableEq

/-- `RawOptionData` from `types/options.ts`; `expiration` is the parsed
epoch-ms timestamp of the contract's expiry instant. -/
structure RawOptionData where
  contractSymbol : String
  strike : ℝ
  expiration : ℝ
  optionType : OptionType
  lastPrice : ℝ
  bid : ℝ
  ask : ℝ
  volume : ℝ
  openInterest : ℝ
  impliedVolatility : ℝ

structure BlackScholesResult where
  callPrice : ℝ
  putPrice : ℝ
  d1 : ℝ
  d2 : ℝ
  nd1 : ℝ
  nd2 : ℝ
  nMinusD1 : ℝ
  nMinusD2 : ℝ

structure Greeks where
  delta : ℝ
  gamma : ℝ
  theta : ℝ
  vega : ℝ
  rho : ℝ

/-- `normalCDF` from `utils/blackScholes.ts`: Abramowitz-Stegun
approximation of the standard normal CDF. -/
noncomputable def normalCDF (x : ℝ) : ℝ :=
  let a1 : ℝ := 0.254829592
  let a2 : ℝ := -0.284496736
  let a3 : ℝ := 1.421413741
  let a4 : ℝ := -1.453152027
  let a5 : ℝ := 1.061405429
  let p : ℝ := 0.3275911
  let sgn : ℝ := if x < 0 then -1 else 1
  let z := |x| / Real.sqrt 2
  let t := 1 / (1 + p * z)
  let y := 1 - ((((a5 * t + a4) * t + a3) * t + a2) * t + a1) * t * Real.exp (-(z * z))
  0.5 * (1 + sgn * y)

/-- `blackScholes` from `utils/blackScholes.ts`. -/
noncomputable def blackScholes (S K T r sigma : ℝ) : BlackScholesResult :=
  if T ≤ 0 then
    { callPrice := max (S - K) 0
      putPrice := max (K - S) 0
      d1 := 0
      d2 := 0
      nd1 := if S > K then 1 else 0
      nd2 := if S > K then 1 else 0
      nMinusD1 := if S > K then 0 else 1
      nMinusD2 := if S > K then 0 else 1 }
  else
    let sqrtT := Real.sqrt T
    let d1 := (Real.log (S / K) + (r + 0.5 * sigma * sigma) * T) / (sigma * sqrtT)
    let d2 := d1 - sigma * sqrtT
    let nd1 := normalCDF d1
    let nd2 := normalCDF d2
    let nMinusD1 := normalCDF (-d1)
    let nMinusD2 := normalCDF (-d2)
    let callPrice := S * nd1 - K * Real.exp (-(r * T)) * nd2
    let putPrice := K * Real.exp (-(r * T)) * nMinusD2 - S * nMinusD1
    { callPrice := callPrice
      putPrice := putPrice
      d1 := d1
      d2 := d2
      nd1 := nd1
      nd2 := nd2
      nMinusD1 := nMinusD1
      nMinusD2 := nMinusD2 }

/-- `calculateGreeks` from `utils/blackScholes.ts`. -/
noncomputable def calculateGreeks (S K T r sigma : ℝ) (optionType : OptionType) : Greeks :=
  if T ≤ 0 then
    { delta := 0, gamma := 0, theta := 0, vega := 0, rho := 0 }
  else
    let sqrtT := Real.sqrt T
    let d1 := (Real.log (S / K) + (r + 0.5 * sigma * sigma) * T) / (sigma * sqrtT)
    let d2 := d1 - sigma * sqrtT
    let nd1 := normalCDF d1
    let nd2 := normalCDF d2
    let nMinusD1 := normalCDF (-d1)
    let nMinusD2 := normalCDF (-d2)
    let phi : ℝ → ℝ := fun u => Real.exp (-0.5 * u * u) / Real.sqrt (2 * Real.pi)
    let phiD1 := phi d1
    let delta : ℝ := match optionType with
      | .call => nd1
      | .put => -nMinusD1
    let rho : ℝ := match optionType with
      | .call => K * T * Real.exp (-(r * T)) * nd2 / 100
      | .put => -K * T * Real.exp (-(r * T)) * nMinusD2 / 100
    let gamma := phiD1 / (S * sigma * sqrtT)
    let theta :=
      (-S * phiD1 * sigma / (2 * sqrtT) -
        r * K * Real.exp (-(r * T)) *
          (match optionType with | .call => nd2 | .put => nMinusD2)) / 365
    let vega := S * phiD1 * sqrtT / 100
    { delta := delta, gamma := gamma, theta := theta, vega := vega, rho := rho }

/-- `calculateEdge` from `utils/blackScholes.ts`. -/
noncomputable def calculateEdge (marketPrice theoreticalPrice : ℝ) : ℝ :=
  if theoreticalPrice = 0 then 0
  else ((marketPrice - theoreticalPrice) / theoreticalPrice) * 100

/-- `calculateTimeToExpiration` from `utils/blackScholes.ts`, with the
parsed expiry timestamp and the ambient clock made explicit (epoch ms). -/
noncomputable def calculateTimeToExpiration (expiryMs nowMs : ℝ) : ℝ :=
  let diffMs := expiryMs - nowMs
  let diffDays := diffMs / (1000 * 60 * 60 * 24)
  max 0 (diffDays / 365.25)

/-- `calculateMoneyness` from `utils/blackScholes.ts`. -/
noncomputable def calculateMoneyness (stockPrice strike : ℝ) : ℝ :=
  ((strike - stockPrice) / stockPrice) * 100

/-- `calculateSpreadPercent` from `utils/blackScholes.ts`. -/
noncomputable def calculateSpreadPercent (bid ask : ℝ) : ℝ :=
  if bid = 0 ∨ ask = 0 then 0
  else
    let mid := (bid + ask) / 2
    ((ask - bid) / mid) * 100

/-- `hasLiquidityWarning` from `utils/blackScholes.ts`. -/
def hasLiquidityWarning (volume openInterest : ℝ) : Prop :=
  volume < 1 ∨ openInterest < 10

/-- `hasSpreadWarning` from `utils/blackScholes.ts`. -/
def hasSpreadWarning (spreadPercent : ℝ) : Prop :=
  spreadPercent > 10

/-- `calculateAssignmentProbability` from `utils/blackScholes.ts`. -/
noncomputable def calculateAssignmentProbability (delta : ℝ) (optionType : OptionType) : ℝ :=
  match optionType with
  | .call => |delta| * 100
  | .put => |delta| * 100

/-- `OptionData` from `types/options.ts`.  `maxProfit` is `EReal` because
the mock pipeline stores JS `Infinity` there for calls; boolean warning
fields are modelled as propositions over exact reals. -/
structure OptionData where
  symbol : String
  ticker : String
  strike : ℝ
  expiration : ℝ
  optionType : OptionType
  lastPrice : ℝ
  bid : ℝ
  ask : ℝ
  volume : ℝ
  openInterest : ℝ
  stockPrice : ℝ
  timeToExpiration : ℝ
  riskFreeRate : ℝ
  impliedVolatility : ℝ
  theoreticalPrice : ℝ
  edge : ℝ
  delta : ℝ
  gamma : ℝ
  theta : ℝ
  vega : ℝ
  rho : ℝ
  moneyness : ℝ
  bidAskSpread : ℝ
  bidAskSpreadPercent : ℝ
  strategyType : StrategyType
  breakevenPrice : ℝ
  maxProfit : EReal
  collateralRequired : ℝ
  annualizedReturn : ℝ
  assignmentProbability : ℝ
  d1 : ℝ
  d2 : ℝ
  nd1 : ℝ
  nd2 : ℝ
  priceSource : PriceSource
  dataAge : ℝ
  hasLiquidityWarning : Prop
  hasSpreadWarning : Prop
  hasStaleDataWarning : Prop

/-- `RISK_FREE_RATE` constant shared by both service files. -/
noncomputable def RISK_FREE_RATE : ℝ := 0.045

/-- `getStrategyType` from the mock-data service file: moneyness-aware
classification (the runtime value can be `speculative`; the TS `as` cast
at the call site is type-level only and does not change the value). -/
noncomputable def getStrategyType (optionType : OptionType) (moneyness : ℝ) : StrategyType :=
  if optionType = .call ∧ moneyness < 0 then .coveredCall
  else if optionType = .put ∧ moneyness > 0 then .cashSecuredPut
  else .speculative

/-- `calculateAnnualReturn` from the mock-data service file. -/
noncomputable def calculateAnnualReturn (edge timeToExpiration : ℝ) : ℝ :=
  if timeToExpiration ≤ 0 then 0
  else (edge / 100) * (365 / (timeToExpiration * 365))

/-- `processOptionData` of the mock-data service file (the first
implementation in the service source), with the ambient clock made the
explicit argument `now` (epoch ms). -/
noncomputable def processOptionDataMock (now : ℝ) (rawOption : RawOptionData)
    (stockPrice : ℝ) (symbol : String) : OptionData :=
  let timeToExpiration := calculateTimeToExpiration rawOption.expiration now
  let moneyness := calculateMoneyness stockPrice rawOption.strike
  let bsResult := blackScholes stockPrice rawOption.strike timeToExpiration
    RISK_FREE_RATE rawOption.impliedVolatility
  let theoreticalPrice := match rawOption.optionType with
    | .call => bsResult.callPrice
    | .put => bsResult.putPrice
  let greeks := calculateGreeks stockPrice rawOption.strike timeToExpiration
    RISK_FREE_RATE rawOption.impliedVolatility rawOption.optionType
  let edge := calculateEdge rawOption.lastPrice theoreticalPrice
  let spreadPercent := calculateSpreadPercent rawOption.bid rawOption.ask
  let assignmentProbability := calculateAssignmentProbability greeks.delta rawOption.optionType
  let strategyType := getStrategyType rawOption.optionType moneyness
  let annualReturn := calculateAnnualReturn edge timeToExpiration
  { symbol := symbol
    ticker := rawOption.contractSymbol
    optionType := rawOption.optionType
    strike := rawOption.strike
    expiration := rawOption.expiration
    stockPrice := stockPrice
    lastPrice := rawOption.lastPrice
    bid := rawOption.bid
    ask := rawOption.ask
    volume := rawOption.volume
    openInterest := rawOption.openInterest
    timeToExpiration := timeToExpiration
    riskFreeRate := RISK_FREE_RATE
    impliedVolatility := rawOption.impliedVolatility
    theoreticalPrice := theoreticalPrice
    edge := edge
    delta := greeks.delta
    gamma := greeks.gamma
    theta := greeks.theta
    vega := greeks.vega
    rho := greeks.rho
    moneyness := moneyness
    bidAskSpread := rawOption.ask - rawOption.bid
    bidAskSpreadPercent := spreadPercent
    strategyType := strategyType
    breakevenPrice := match rawOption.optionType with
      | .call => rawOption.strike + rawOption.lastPrice
      | .put => rawOption.strike - rawOption.lastPrice
    maxProfit := match rawOption.optionType with
      | .call => (⊤ : EReal)
      | .put => ((rawOption.strike - rawOption.lastPrice : ℝ) : EReal)
    collateralRequired := match rawOption.optionType with
      | .call => stockPrice * 100
      | .put => rawOption.strike * 100
    annualizedReturn := annualReturn
    assignmentProbability := assignmentProbability
    d1 := bsResult.d1
    d2 := bsResult.d2
    nd1 := bsResult.nd1
    nd2 := bsResult.nd2
    priceSource := .last
    dataAge := 0
    hasLiquidityWarning := hasLiquidityWarning rawOption.volume rawOption.openInterest
    hasSpreadWarning := hasSpreadWarning spreadPercent
    hasStaleDataWarning := False }

/-- `processOptionData` of the fetch service file (the second
implementation in the service source); `now` is the ambient clock and
`rand` the ambient `Math.random()` draw used for the mock data age. -/
noncomputable def processOptionDataFetch (now rand : ℝ) (rawOption : RawOptionData)
    (stockPrice : ℝ) (ticker : String) : OptionData :=
  let timeToExpiration := calculateTimeToExpiration rawOption.expiration now
  let bsResult := blackScholes stockPrice rawOption.strike timeToExpiration
    RISK_FREE_RATE rawOption.impliedVolatility
  let theoreticalPrice := match rawOption.optionType with
    | .call => bsResult.callPrice
    | .put => bsResult.putPrice
  let greeks := calculateGreeks stockPrice rawOption.strike timeToExpiration
    RISK_FREE_RATE rawOption.impliedVolatility rawOption.optionType
  let edge := calculateEdge rawOption.lastPrice theoreticalPrice
  let moneyness := calculateMoneyness stockPrice rawOption.strike
  let bidAskSpread := rawOption.ask - rawOption.bid
  let bidAskSpreadPercent := calculateSpreadPercent rawOption.bid rawOption.ask
  let strategyType : StrategyType := match rawOption.optionType with
    | .call => .coveredCall
    | .put => .cashSecuredPut
  let breakevenPrice := match rawOption.optionType with
    | .call => rawOption.strike + rawOption.lastPrice
    | .put => rawOption.strike - rawOption.lastPrice
  let maxProfit := rawOption.lastPrice * 100
  let collateralRequired := match rawOption.optionType with
    | .call => stockPrice * 100
    | .put => rawOption.strike * 100
  let daysToExpiration := timeToExpiration * 365
  let annualizedReturn :=
    if daysToExpiration > 0 then
      (maxProfit / collateralRequired) * (365 / daysToExpiration) * 100
    else 0
  let assignmentProbability := calculateAssignmentProbability greeks.delta rawOption.optionType
  let hasLiquidityWarn := hasLiquidityWarning rawOption.volume rawOption.openInterest
  let hasSpreadWarn := hasSpreadWarning bidAskSpreadPercent
  let dataAge := rand * 5
  let hasStaleDataWarn := dataAge > 15
  { symbol := rawOption.contractSymbol
    ticker := ticker
    strike := rawOption.strike
    expiration := rawOption.expiration
    optionType := rawOption.optionType
    lastPrice := rawOption.lastPrice
    bid := rawOption.bid
    ask := rawOption.ask
    volume := rawOption.volume
    openInterest := rawOption.openInterest
    stockPrice := stockPrice
    timeToExpiration := timeToExpiration
    riskFreeRate := RISK_FREE_RATE
    impliedVolatility := rawOption.impliedVolatility
    theoreticalPrice := theoreticalPrice
    edge := edge
    delta := greeks.delta
    gamma := greeks.gamma
    theta := greeks.theta
    vega := greeks.vega
    rho := greeks.rho
    moneyness := moneyness
    bidAskSpread := bidAskSpread
    bidAskSpreadPercent := bidAskSpreadPercent
    strategyType := strategyType
    breakevenPrice := breakevenPrice
    maxProfit := ((maxProfit : ℝ) : EReal)
    collateralRequired := collateralRequired
    annualizedReturn := annualizedReturn
    assignmentProbability := assignmentProbability
    d1 := bsResult.d1
    d2 := bsResult.d2
    nd1 := bsResult.nd1
    nd2 := bsResult.nd2
    priceSource := .last
    dataAge := dataAge
    hasLiquidityWarning := hasLiquidityWarn
    hasSpreadWarning := hasSpreadWarn
    hasStaleDataWarning := hasStaleDataWarn }

/-- One entry of the market-data shape consumed by the orchestrators
(`{symbol, price, options}`). -/
structure SymbolData where
  symbol : String
  price : ℝ
  options : List RawOptionData

/-- `MOCK_OPTIONS_DATA` from the mock-data service file.  All contracts
expire on '2025-08-16'; `E` is the parsed epoch-ms timestamp of that
expiry instant (date parsing is external). -/
def MOCK_OPTIONS_DATA (E : ℝ) : String → Option SymbolData
  | "AAPL" => some
      { symbol := "AAPL"
        price := 185.50
        options :=
          [ { contractSymbol := "AAPL240816C00180000"
              strike := 180
              expiration := E
              optionType := .call
              lastPrice := 8.45
              bid := 8.20
              ask := 8.70
              volume := 1250
              openInterest := 5420
              impliedVolatility := 0.28 },
            { contractSymbol := "AAPL240816P00190000"
              strike := 190
              expiration := E
              optionType := .put
              lastPrice := 6.25
              bid := 6.00
              ask := 6.50
              volume := 890
              openInterest := 3210
              impliedVolatility := 0.30 } ] }
  | "MSFT" => some
      { symbol := "MSFT"
        price := 415.20
        options :=
          [ { contractSymbol := "MSFT240816C00410000"
              strike := 410
              expiration := E
              optionType := .call
              lastPrice := 12.35
              bid := 12.00
              ask := 12.70
              volume := 750
              openInterest := 2890
              impliedVolatility := 0.25 } ] }
  | "NVDA" => some
      { symbol := "NVDA"
        price := 118.75
        options :=
          [ { contractSymbol := "NVDA240816C00115000"
              strike := 115
              expiration := E
              optionType := .call
              lastPrice := 6.80
              bid := 6.60
              ask := 7.00
              volume := 2100
              openInterest := 8750
              impliedVolatility := 0.35 } ] }
  | _ => none

/-- The filter predicate applied per contract by both orchestrators. -/
noncomputable def passesFilters (minEdge minVolume minPrice : ℝ) (option : OptionData) : Bool :=
  decide (minEdge ≤ option.edge) && decide (minVolume ≤ option.volume) &&
    decide (minPrice ≤ option.lastPrice)

/-- The symbol loop of the mock-data `searchOptionsData`: processes the
remaining symbols starting at index `i`, returning the accumulated kept
records (in arrival order, before the final sort) and the progress events
`(current, total, label)` emitted inside the loop. -/
noncomputable def searchLoopMock (E now minEdge minVolume minPrice : ℝ) (total : ℕ) :
    ℕ → List String → List OptionData × List (ℕ × ℕ × String)
  | _, [] => ([], [])
  | i, symbol :: rest =>
    let ev := (i, total, symbol)
    let chunk : List OptionData :=
      match MOCK_OPTIONS_DATA E symbol with
      | none => []
      | some symbolData =>
        let symbolOptions := symbolData.options.map fun option =>
          processOptionDataMock now option symbolData.price symbolData.symbol
        symbolOptions.filter (passesFilters minEdge minVolume minPrice)
    let restResult := searchLoopMock E now minEdge minVolume minPrice total (i + 1) rest
    (chunk ++ restResult.1, ev :: restResult.2)

/-- `searchOptionsData` of the mock-data service file.  Returns the
sorted opportunity list together with the full `onProgress` event trace
(the artificial `setTimeout` delay has no observable effect and is
dropped).  The JS `sort((a, b) => b.edge - a.edge)` is modelled by a
stable merge sort under the comparator "edge not below". -/
noncomputable def searchOptionsDataMock (E now minEdge minVolume minPrice : ℝ)
    (symbols : List String) : List OptionData × List (ℕ × ℕ × String) :=
  let loopResult := searchLoopMock E now minEdge minVolume minPrice symbols.length 0 symbols
  (loopResult.1.mergeSort (fun a b => decide (b.edge ≤ a.edge)),
    loopResult.2 ++ [(symbols.length, symbols.length, "")])

/-- The symbol loop of the fetch `searchOptionsData`.  `fetchResults`
models the HTTP collaborator (`none` covers both a thrown/failed fetch,
which the `catch` swallows, and an empty result array); `rand` models the
ambient `Math.random()` draw consumed for the `j`-th contract of a
symbol. -/
noncomputable def searchLoopFetch (fetchResults : String → Option SymbolData)
    (now : ℝ) (rand : String → ℕ → ℝ) (minEdge minVolume minPrice : ℝ) (total : ℕ) :
    ℕ → List String → List OptionData × List (ℕ × ℕ × String)
  | _, [] => ([], [])
  | i, symbol :: rest =>
    let ev := (i, total, symbol)
    let chunk : List OptionData :=
      match fetchResults symbol with
      | none => []
      | some symbolData =>
        let symbolOptions := symbolData.options.enum.map fun option =>
          processOptionDataFetch now (rand symbol option.1) option.2
            symbolData.price symbolData.symbol
        symbolOptions.filter (passesFilters minEdge minVolume minPrice)
    let restResult := searchLoopFetch fetchResults now rand minEdge minVolume minPrice
      total (i + 1) rest
    (chunk ++ restResult.1, ev :: restResult.2)

/-- `searchOptionsData` of the fetch service file, with the same
modelling conventions as `searchOptionsDataMock`; note its completion
event carries the label 'Complete'. -/
noncomputable def searchOptionsDataFetch (fetchResults : String → Option SymbolData)
    (now : ℝ) (rand : String → ℕ → ℝ) (minEdge minVolume minPrice : ℝ)
    (symbols : List String) : List OptionData × List (ℕ × ℕ × String) :=
  let loopResult := searchLoopFetch fetchResults now rand minEdge minVolume minPrice
    symbols.length 0 symbols
  (loopResult.1.mergeSort (fun a b => decide (b.edge ≤ a.edge)),
    loopResult.2 ++ [(symbols.length, symbols.length, "Complete")])

/-! Analytic facts about the Abramowitz-Stegun approximation.  Writing
`P t` for the quintic `((((a5 t + a4) t + a3) t + a2) t + a1) t`, we show
`P t = t * q t` with `q` a positive-definite quartic, and
`1 - P t = 10⁻⁹ + (1 - t) * cof t` with `cof` a positive-definite
quartic, so `0 ≤ P t ≤ 1` holds on `[0, 1]`. -/

lemma AS_quartic_pos (t : ℝ) :
    0 < 0.254829592 - 0.284496736 * t + 1.421413741 * t^2
        - 1.453152027 * t^3 + 1.061405429 * t^4 := by
  have h1 : (0:ℝ) ≤ (t^2 - (1453152027/2122810858) * t)^2 := sq_nonneg _
  have h2 : (0:ℝ) ≤ ((3923134232636190827/2122810858000000000) * t - 0.284496736)^2 :=
    sq_nonneg _
  nlinarith [h1, h2]

lemma AS_cofactor_pos (t : ℝ) :
    0 < 0.999999999 + 0.745170407 * t + 1.029667143 * t^2
        - 0.391746598 * t^3 + 1.061405429 * t^4 := by
  have h1 : (0:ℝ) ≤ (t^2 - (195873299/1061405429) * t)^2 := sq_nonneg _
  have h2 : (0:ℝ) ≤ ((527263973190987973/265351357250000000) * t + 0.745170407)^2 :=
    sq_nonneg _
  nlinarith [h1, h2]

lemma AS_horner_nonneg (t : ℝ) (ht : 0 ≤ t) :
    0 ≤ ((((1.061405429 * t + -1.453152027) * t + 1.421413741) * t
          + -0.284496736) * t + 0.254829592) * t := by
  nlinarith [mul_nonneg ht (AS_quartic_pos t).le]

lemma AS_horner_le_one (t : ℝ) (ht : t ≤ 1) :
    ((((1.061405429 * t + -1.453152027) * t + 1.421413741) * t
          + -0.284496736) * t + 0.254829592) * t ≤ 1 := by
  nlinarith [mul_nonneg (by linarith : (0:ℝ) ≤ 1 - t) (AS_cofactor_pos t).le]

/-- `normalCDF x` laid bare: a sign times `1 - P * E` with the quintic
value `P ∈ [0,1]` and the Gaussian factor `E ∈ (0,1]`. -/
lemma normalCDF_decomp (x : ℝ) :
    ∃ P E : ℝ, 0 ≤ P ∧ P ≤ 1 ∧ 0 < E ∧ E ≤ 1 ∧
      normalCDF x = 0.5 * (1 + (if x < 0 then -1 else 1) * (1 - P * E)) := by
  set z : ℝ := |x| / Real.sqrt 2 with hz
  have hz0 : 0 ≤ z := div_nonneg (abs_nonneg x) (Real.sqrt_nonneg 2)
  have hden : (1:ℝ) ≤ 1 + 0.3275911 * z := by nlinarith
  set t : ℝ := 1 / (1 + 0.3275911 * z) with htdef
  have ht0 : 0 ≤ t := by positivity
  have ht1 : t ≤ 1 := by
    rw [htdef, div_le_one (by linarith)]
    linarith
  refine ⟨((((1.061405429 * t + -1.453152027) * t + 1.421413741) * t
      + -0.284496736) * t + 0.254829592) * t, Real.exp (-(z * z)),
    AS_horner_nonneg t ht0, AS_horner_le_one t ht1, Real.exp_pos _, ?_, ?_⟩
  · calc Real.exp (-(z * z)) ≤ Real.exp 0 := Real.exp_le_exp.mpr (by nlinarith)
      _ = 1 := Real.exp_zero
  · rfl

lemma normalCDF_nonneg (x : ℝ) : 0 ≤ normalCDF x := by
  obtain ⟨P, E, hP0, hP1, hE0, hE1, hEq⟩ := normalCDF_decomp x
  rw [hEq]
  have hPE0 : 0 ≤ P * E := mul_nonneg hP0 hE0.le
  have hPE1 : P * E ≤ 1 := le_trans (mul_le_of_le_one_right hP0 hE1) hP1
  split <;> nlinarith

lemma normalCDF_le_one (x : ℝ) : normalCDF x ≤ 1 := by
  obtain ⟨P, E, hP0, hP1, hE0, hE1, hEq⟩ := normalCDF_decomp x
  rw [hEq]
  have hPE0 : 0 ≤ P * E := mul_nonneg hP0 hE0.le
  have hPE1 : P * E ≤ 1 := le_trans (mul_le_of_le_one_right hP0 hE1) hP1
  split <;> nlinarith

lemma half_le_normalCDF (x : ℝ) (hx : 0 ≤ x) : 1/2 ≤ normalCDF x := by
  obtain ⟨P, E, hP0, hP1, hE0, hE1, hEq⟩ := normalCDF_decomp x
  rw [hEq, if_neg (not_lt.mpr hx)]
  have hPE1 : P * E ≤ 1 := le_trans (mul_le_of_le_one_right hP0 hE1) hP1
  nlinarith

lemma normalCDF_add_neg_of_pos (x : ℝ) (hx : 0 < x) :
    normalCDF x + normalCDF (-x) = 1 := by
  have h1 : ¬ x < 0 := not_lt.mpr hx.le
  have h2 : -x < 0 := neg_neg_iff_pos.mpr hx
  simp only [normalCDF, if_neg h1, if_pos h2, abs_neg]
  ring

lemma normalCDF_add_neg_of_ne (x : ℝ) (hx : x ≠ 0) :
    normalCDF x + normalCDF (-x) = 1 := by
  rcases lt_or_gt_of_ne hx with h | h
  · have := normalCDF_add_neg_of_pos (-x) (by linarith)
    rw [neg_neg] at this
    linarith
  · exact normalCDF_add_neg_of_pos x h

lemma normalCDF_zero_val : normalCDF 0 = 1000000001/2000000000 := by
  simp only [normalCDF, abs_zero, zero_div, mul_zero, neg_zero, Real.exp_zero]
  norm_num

/-- The exact symmetry defect of the approximation: `N x + N (-x) - 1`
is `0` away from the origin and `10⁻⁹` at it. -/
lemma normalCDF_sym_defect (x : ℝ) :
    0 ≤ normalCDF x + normalCDF (-x) - 1 ∧
      normalCDF x + normalCDF (-x) - 1 ≤ 1/1000000000 := by
  rcases eq_or_ne x 0 with h | h
  · subst h
    rw [neg_zero, normalCDF_zero_val]
    norm_num
  · rw [normalCDF_add_neg_of_ne x h]
    norm_num

/-- The per-symbol contract chunk the mock orchestrator accumulates. -/
noncomputable def mockChunk (E now minEdge minVolume minPrice : ℝ) (symbol : String) :
    List OptionData :=
  match MOCK_OPTIONS_DATA E symbol with
  | none => []
  | some symbolData =>
    (symbolData.options.map fun option =>
      processOptionDataMock now option symbolData.price symbolData.symbol).filter
        (passesFilters minEdge minVolume minPrice)

lemma searchLoopMock_fst (E now minEdge minVolume minPrice : ℝ) (total : ℕ)
    (symbols : List String) : ∀ i : ℕ,
    (searchLoopMock E now minEdge minVolume minPrice total i symbols).1 =
      symbols.flatMap (mockChunk E now minEdge minVolume minPrice) := by
  induction symbols with
  | nil => intro i; rfl
  | cons s rest ih =>
    intro i
    simp only [searchLoopMock, List.flatMap_cons, ih (i + 1), mockChunk]

lemma searchLoopMock_snd (E now minEdge minVolume minPrice : ℝ) (total : ℕ)
    (symbols : List String) : ∀ i : ℕ,
    (searchLoopMock E now minEdge minVolume minPrice total i symbols).2 =
      (symbols.enumFrom i).map (fun p => (p.1, total, p.2)) := by
  induction symbols with
  | nil => intro i; rfl
  | cons s rest ih =>
    intro i
    simp only [searchLoopMock, List.enumFrom, List.map_cons, ih (i + 1)]

lemma searchLoopFetch_snd (fetchResults : String → Option SymbolData) (now : ℝ)
    (rand : String → ℕ → ℝ) (minEdge minVolume minPrice : ℝ) (total : ℕ)
    (symbols : List String) : ∀ i : ℕ,
    (searchLoopFetch fetchResults now rand minEdge minVolume minPrice total i symbols).2 =
      (symbols.enumFrom i).map (fun p => (p.1, total, p.2)) := by
  induction symbols with
  | nil => intro i; rfl
  | cons s rest ih =>
    intro i
    simp only [searchLoopFetch, List.enumFrom, List.map_cons, ih (i + 1)]

lemma edgeDesc_trans : ∀ a b c : OptionData,
    (decide (b.edge ≤ a.edge)) = true → (decide (c.edge ≤ b.edge)) = true →
    (decide (c.edge ≤ a.edge)) = true := by
  intro a b c hab hbc
  simp only [decide_eq_true_iff] at *
  exact le_trans hbc hab

lemma edgeDesc_total : ∀ a b : OptionData,
    ((decide (b.edge ≤ a.edge)) || (decide (a.edge ≤ b.edge))) = true := by
  intro a b
  simp only [Bool.or_eq_true, decide_eq_true_iff]
  exact le_total b.edge a.edge

/-- C3: for T ≤ 0, `blackScholes` returns the intrinsic values
`max (S-K) 0` / `max (K-S) 0` exactly, d1 = d2 = 0, nd1 = nd2 = moneyness
indicator (1 if S > K else 0) with nMinusD1, nMinusD2 its complement, and
`calculateGreeks` returns all-zero Greeks for both option kinds. -/
theorem C3_expired_options_intrinsic (S K T r sigma : ℝ) (hT : T ≤ 0) :
    (blackScholes S K T r sigma).callPrice = max (S - K) 0 ∧
    (blackScholes S K T r sigma).putPrice = max (K - S) 0 ∧
    (blackScholes S K T r sigma).d1 = 0 ∧
    (blackScholes S K T r sigma).d2 = 0 ∧
    (blackScholes S K T r sigma).nd1 = (if S > K then 1 else 0) ∧
    (blackScholes S K T r sigma).nd2 = (if S > K then 1 else 0) ∧
    (blackScholes S K T r sigma).nMinusD1 = (if S > K then 0 else 1) ∧
    (blackScholes S K T r sigma).nMinusD2 = (if S > K then 0 else 1) ∧
    (∀ kind, calculateGreeks S K T r sigma kind = ⟨0, 0, 0, 0, 0⟩) := by
  refine ⟨?_, ?_, ?_, ?_, ?_, ?_, ?_, ?_, ?_⟩ <;>
    simp [blackScholes, calculateGreeks, if_pos hT]

/-- Witness for C3 at S = 2, K = 1, T = 0, r = 1/20, sigma = 1/2. -/
theorem C3_expired_options_intrinsic_witness :
    (0 : ℝ) ≤ 0 ∧ (blackScholes 2 1 0 (1/20) (1/2)).callPrice = max (2 - 1) 0 :=
  ⟨le_refl 0, (C3_expired_options_intrinsic 2 1 0 (1/20) (1/2) (le_refl 0)).1⟩

/-- C5: for S > 0, K > 0, sigma > 0, T > 0 and any r, `calculateGreeks`
returns a call delta in [0, 1], a put delta in [-1, 0], and nonnegative
gamma and vega for both option kinds. -/
theorem C5_greeks_in_range (S K T r sigma : ℝ)
    (hS : 0 < S) (hK : 0 < K) (hsigma : 0 < sigma) (hT : 0 < T) :
    (0 ≤ (calculateGreeks S K T r sigma .call).delta ∧
      (calculateGreeks S K T r sigma .call).delta ≤ 1) ∧
    (-1 ≤ (calculateGreeks S K T r sigma .put).delta ∧
      (calculateGreeks S K T r sigma .put).delta ≤ 0) ∧
    (∀ kind, 0 ≤ (calculateGreeks S K T r sigma kind).gamma) ∧
    (∀ kind, 0 ≤ (calculateGreeks S K T r sigma kind).vega) := by
  have hT' : ¬ T ≤ 0 := not_le.mpr hT
  have hsqT : 0 < Real.sqrt T := Real.sqrt_pos.mpr hT
  refine ⟨⟨?_, ?_⟩, ⟨?_, ?_⟩, ?_, ?_⟩
  · simp only [calculateGreeks, if_neg hT']
    exact normalCDF_nonneg _
  · simp only [calculateGreeks, if_neg hT']
    exact normalCDF_le_one _
  · simp only [calculateGreeks, if_neg hT']
    have := normalCDF_le_one
      (-((Real.log (S / K) + (r + 0.5 * sigma * sigma) * T) / (sigma * Real.sqrt T)))
    linarith
  · simp only [calculateGreeks, if_neg hT']
    have := normalCDF_nonneg
      (-((Real.log (S / K) + (r + 0.5 * sigma * sigma) * T) / (sigma * Real.sqrt T)))
    linarith
  · intro kind
    cases kind <;>
    · simp only [calculateGreeks, if_neg hT']
      refine div_nonneg (div_nonneg (Real.exp_nonneg _) (Real.sqrt_nonneg _)) ?_
      positivity
  · intro kind
    cases kind <;>
    · simp only [calculateGreeks, if_neg hT']
      refine div_nonneg ?_ (by norm_num)
      refine mul_nonneg (mul_nonneg hS.le ?_) (Real.sqrt_nonneg _)
      exact div_nonneg (Real.exp_nonneg _) (Real.sqrt_nonneg _)

/-- C4 counterexample: at S = 10⁷, K = 10⁷·e, T = 1, r = 1/2, sigma = 1
(all positive), d1 = 0 exactly, and the symmetry defect of the
Abramowitz-Stegun approximation at the origin makes the put-call parity
residual equal −1/100, far outside the claimed 10⁻⁶ tolerance. -/
theorem C4_put_call_parity_counterexample :
    (0:ℝ) < 10000000 ∧ (0:ℝ) < 10000000 * Real.exp 1 ∧
    (0:ℝ) < 1/2 ∧ (0:ℝ) < 1 ∧
    ¬ |(blackScholes 10000000 (10000000 * Real.exp 1) 1 (1/2) 1).putPrice -
        ((blackScholes 10000000 (10000000 * Real.exp 1) 1 (1/2) 1).callPrice
          - 10000000 + (10000000 * Real.exp 1) * Real.exp (-(1/2 * 1)))| ≤ 1/1000000 := by
  have hKpos : (0:ℝ) < 10000000 * Real.exp 1 :=
    mul_pos (by norm_num) (Real.exp_pos 1)
  refine ⟨by norm_num, hKpos, by norm_num, by norm_num, ?_⟩
  have hT' : ¬ (1:ℝ) ≤ 0 := by norm_num
  have hE : (blackScholes 10000000 (10000000 * Real.exp 1) 1 (1/2) 1).putPrice -
      ((blackScholes 10000000 (10000000 * Real.exp 1) 1 (1/2) 1).callPrice
        - 10000000 + (10000000 * Real.exp 1) * Real.exp (-(1/2 * 1))) = -(1/100) := by
    simp only [blackScholes, if_neg hT']
    rw [show (10000000:ℝ) / (10000000 * Real.exp 1) = (Real.exp 1)⁻¹ by
      rw [div_mul_eq_div_div, div_self (by norm_num : (10000000:ℝ) ≠ 0), one_div]]
    rw [Real.log_inv, Real.log_exp, Real.sqrt_one]
    norm_num
    rw [normalCDF_zero_val]
    have hsum := normalCDF_add_neg_of_pos 1 one_pos
    have h2 : (10000000 * Real.exp 1) * Real.exp (-(1/2 * 1)) *
        (normalCDF 1 + normalCDF (-1)) =
        (10000000 * Real.exp 1) * Real.exp (-(1/2 * 1)) * 1 := by rw [hsum]
    ring_nf at h2 ⊢
    linarith
  rw [hE]
  intro h
  rw [abs_le] at h
  have := h.1
  norm_num at this

/-- C4 (amended): put-call parity within 10⁻⁶ for positive inputs, with
the bounds S ≤ 1000 and K·e^(−rT) ≤ 1000 that the approximation's
symmetry defect at the origin forces. -/
theorem C4_put_call_parity_bounded (S K T r sigma : ℝ)
    (hS : 0 < S) (hS1000 : S ≤ 1000) (hK : 0 < K)
    (hKd : K * Real.exp (-(r * T)) ≤ 1000)
    (hr : 0 < r) (hsigma : 0 < sigma) (hT : 0 < T) :
    |(blackScholes S K T r sigma).putPrice -
      ((blackScholes S K T r sigma).callPrice - S + K * Real.exp (-(r * T)))| ≤
      1/1000000 := by
  have hT' : ¬ T ≤ 0 := not_le.mpr hT
  simp only [blackScholes, if_neg hT']
  have hd1 := normalCDF_sym_defect
    ((Real.log (S / K) + (r + 0.5 * sigma * sigma) * T) / (sigma * Real.sqrt T))
  have hd2 := normalCDF_sym_defect
    ((Real.log (S / K) + (r + 0.5 * sigma * sigma) * T) / (sigma * Real.sqrt T)
      - sigma * Real.sqrt T)
  have hA : 0 < K * Real.exp (-(r * T)) := mul_pos hK (Real.exp_pos _)
  rw [abs_le]
  constructor
  · nlinarith [mul_nonneg hA.le hd2.1,
      mul_le_mul hS1000 hd1.2 hd1.1 (by norm_num : (0:ℝ) ≤ 1000)]
  · nlinarith [mul_nonneg hS.le hd1.1,
      mul_le_mul hKd hd2.2 hd2.1 (by norm_num : (0:ℝ) ≤ 1000)]

/-- Witness for the amended C4 at S = 100, K = 100, T = 1, r = 1/2,
sigma = 1. -/
theorem C4_put_call_parity_bounded_witness :
    ((0:ℝ) < 100 ∧ (100:ℝ) ≤ 1000 ∧ (0:ℝ) < 1/2 ∧ (0:ℝ) < 1 ∧
      (100:ℝ) * Real.exp (-(1/2 * 1)) ≤ 1000) ∧
    |(blackScholes 100 100 1 (1/2) 1).putPrice -
      ((blackScholes 100 100 1 (1/2) 1).callPrice - 100 +
        100 * Real.exp (-(1/2 * 1)))| ≤ 1/1000000 := by
  have hKd : (100:ℝ) * Real.exp (-(1/2 * 1)) ≤ 1000 := by
    have h1 : Real.exp (-(1/2 * 1) : ℝ) ≤ 1 := Real.exp_le_one_iff.mpr (by norm_num)
    nlinarith
  exact ⟨⟨by norm_num, by norm_num, by norm_num, by norm_num, hKd⟩,
    C4_put_call_parity_bounded 100 100 1 (1/2) 1 (by norm_num) (by norm_num)
      (by norm_num) hKd (by norm_num) (by norm_num) (by norm_num)⟩

/-- Witness for C5 at S = 100, K = 90, T = 1, r = 1/20, sigma = 1/4. -/
theorem C5_greeks_in_range_witness :
    (0:ℝ) < 100 ∧ (0:ℝ) < 90 ∧ (0:ℝ) < 1/4 ∧ (0:ℝ) < 1 ∧
      (0 ≤ (calculateGreeks 100 90 1 (1/20) (1/4) .call).delta ∧
        (calculateGreeks 100 90 1 (1/20) (1/4) .call).delta ≤ 1) :=
  ⟨by norm_num, by norm_num, by norm_num, by norm_num,
    (C5_greeks_in_range 100 90 1 (1/20) (1/4) (by norm_num) (by norm_num)
      (by norm_num) (by norm_num)).1⟩

lemma mem_mockChunk (E now minEdge minVolume minPrice : ℝ) (symbol : String)
    (o : OptionData) :
    o ∈ mockChunk E now minEdge minVolume minPrice symbol ↔
      ∃ sd, MOCK_OPTIONS_DATA E symbol = some sd ∧
        ∃ raw ∈ sd.options, o = processOptionDataMock now raw sd.price sd.symbol ∧
          minEdge ≤ o.edge ∧ minVolume ≤ o.volume ∧ minPrice ≤ o.lastPrice := by
  unfold mockChunk
  cases hm : MOCK_OPTIONS_DATA E symbol with
  | none =>
    simp only [List.not_mem_nil, false_iff]
    rintro ⟨sd, hsd, -⟩
    exact Option.noConfusion hsd
  | some sd =>
    simp only [List.mem_filter, List.mem_map, passesFilters, Bool.and_eq_true,
      decide_eq_true_eq]
    constructor
    · rintro ⟨⟨raw, hraw, heq⟩, ⟨h1, h2⟩, h3⟩
      exact ⟨sd, rfl, raw, hraw, heq.symm, h1, h2, h3⟩
    · rintro ⟨sd2, hsd2, raw, hraw, heq, h1, h2, h3⟩
      obtain rfl : sd = sd2 := Option.some.inj (hm ▸ hsd2)
      exact ⟨⟨raw, hraw, heq.symm⟩, ⟨h1, h2⟩, h3⟩

/-- C1: the mock-data `searchOptionsData` returns a permutation of the
per-symbol accumulated kept records; a record is returned exactly when it
is an analyzed contract of a resolved symbol passing all three inclusive
filter bounds; and the returned sequence is sorted by edge descending. -/
theorem C1_search_filters_and_sorts (E now minEdge minVolume minPrice : ℝ)
    (symbols : List String) :
    ((searchOptionsDataMock E now minEdge minVolume minPrice symbols).1).Perm
        (symbols.flatMap (mockChunk E now minEdge minVolume minPrice)) ∧
    List.Sorted (fun a b : OptionData => b.edge ≤ a.edge)
        (searchOptionsDataMock E now minEdge minVolume minPrice symbols).1 ∧
    (∀ o : OptionData,
      o ∈ (searchOptionsDataMock E now minEdge minVolume minPrice symbols).1 ↔
        ∃ symbol ∈ symbols, ∃ sd, MOCK_OPTIONS_DATA E symbol = some sd ∧
          ∃ raw ∈ sd.options, o = processOptionDataMock now raw sd.price sd.symbol ∧
            minEdge ≤ o.edge ∧ minVolume ≤ o.volume ∧ minPrice ≤ o.lastPrice) := by
  have hperm : ((searchOptionsDataMock E now minEdge minVolume minPrice symbols).1).Perm
      (symbols.flatMap (mockChunk E now minEdge minVolume minPrice)) := by
    simp only [searchOptionsDataMock]
    exact (List.mergeSort_perm _ _).trans
      (by rw [searchLoopMock_fst E now minEdge minVolume minPrice symbols.length symbols 0])
  refine ⟨hperm, ?_, ?_⟩
  · have h := List.sorted_mergeSort edgeDesc_trans edgeDesc_total
      (searchLoopMock E now minEdge minVolume minPrice symbols.length 0 symbols).1
    exact h.imp fun hab => of_decide_eq_true hab
  · intro o
    rw [hperm.mem_iff, List.mem_flatMap]
    constructor
    · rintro ⟨symbol, hs, ho⟩
      exact ⟨symbol, hs, (mem_mockChunk E now minEdge minVolume minPrice symbol o).mp ho⟩
    · rintro ⟨symbol, hs, hrest⟩
      exact ⟨symbol, hs, (mem_mockChunk E now minEdge minVolume minPrice symbol o).mpr hrest⟩

/-- C2 counterexample: with the single symbol list ["A"], the fetch
implementation's completion event carries the label 'Complete', not the
empty string the claim asserts for every `searchOptionsData`. -/
theorem C2_progress_counterexample :
    (searchOptionsDataFetch (fun _ => none) 0 (fun _ _ => 0) 5 1 (1/10) ["A"]).2 =
      [(0, 1, "A"), (1, 1, "Complete")] ∧ ("Complete" : String) ≠ "" := by
  constructor
  · simp only [searchOptionsDataFetch]
    rw [searchLoopFetch_snd (fun _ => none) 0 (fun _ _ => 0) 5 1 (1/10) ["A"].length
      ["A"] 0]
    rfl
  · decide

lemma enumFrom_map_fst (l : List String) : ∀ i : ℕ,
    (l.enumFrom i).map (fun p : ℕ × String => p.1) = List.range' i l.length := by
  induction l with
  | nil => intro i; rfl
  | cons s rest ih =>
    intro i
    rw [List.length_cons, List.range'_succ]
    simp only [List.enumFrom, List.map_cons, ih (i + 1)]

lemma enumFrom_map_snd (l : List String) : ∀ i : ℕ,
    (l.enumFrom i).map (fun p : ℕ × String => p.2) = l := by
  induction l with
  | nil => intro i; rfl
  | cons s rest ih =>
    intro i
    simp only [List.enumFrom, List.map_cons, ih (i + 1)]

/-- C2 (amended): both orchestrators emit exactly N+1 progress events
whose indices are the gap-free sequence 0..N, whose second component is
always N and whose labels are the processed symbols in order; the
completion label is "" in the mock-data implementation but 'Complete' in
the fetch implementation. -/
theorem C2_progress_event_trace (E now minEdge minVolume minPrice : ℝ)
    (fetchResults : String → Option SymbolData) (rand : String → ℕ → ℝ)
    (symbols : List String) :
    (searchOptionsDataMock E now minEdge minVolume minPrice symbols).2 =
        symbols.enum.map (fun p => (p.1, symbols.length, p.2)) ++
          [(symbols.length, symbols.length, "")] ∧
    (searchOptionsDataFetch fetchResults now rand minEdge minVolume minPrice symbols).2 =
        symbols.enum.map (fun p => (p.1, symbols.length, p.2)) ++
          [(symbols.length, symbols.length, "Complete")] ∧
    ((searchOptionsDataMock E now minEdge minVolume minPrice symbols).2).length =
        symbols.length + 1 ∧
    ((searchOptionsDataMock E now minEdge minVolume minPrice symbols).2).map
        (fun e => e.1) = List.range (symbols.length + 1) ∧
    (∀ e ∈ (searchOptionsDataMock E now minEdge minVolume minPrice symbols).2,
        e.2.1 = symbols.length) ∧
    ((searchOptionsDataMock E now minEdge minVolume minPrice symbols).2).map
        (fun e => e.2.2) = symbols ++ [""] := by
  have hm : (searchOptionsDataMock E now minEdge minVolume minPrice symbols).2 =
      symbols.enum.map (fun p => (p.1, symbols.length, p.2)) ++
        [(symbols.length, symbols.length, "")] := by
    simp only [searchOptionsDataMock]
    rw [searchLoopMock_snd E now minEdge minVolume minPrice symbols.length symbols 0]
    rfl
  have hf : (searchOptionsDataFetch fetchResults now rand minEdge minVolume minPrice
      symbols).2 =
      symbols.enum.map (fun p => (p.1, symbols.length, p.2)) ++
        [(symbols.length, symbols.length, "Complete")] := by
    simp only [searchOptionsDataFetch]
    rw [searchLoopFetch_snd fetchResults now rand minEdge minVolume minPrice
      symbols.length symbols 0]
    rfl
  refine ⟨hm, hf, ?_, ?_, ?_, ?_⟩
  · rw [hm]
    simp [List.enum_length]
  · rw [hm, List.map_append]
    simp only [List.map_map, List.map_cons, List.map_nil]
    rw [show ((fun e : ℕ × ℕ × String => e.1) ∘
        fun p : ℕ × String => (p.1, symbols.length, p.2)) =
        (fun p : ℕ × String => p.1) from rfl]
    rw [show symbols.enum = symbols.enumFrom 0 from rfl, enumFrom_map_fst symbols 0,
      List.range_succ, List.range_eq_range']
  · rw [hm]
    intro e he
    rcases List.mem_append.mp he with h | h
    · obtain ⟨p, -, rfl⟩ := List.mem_map.mp h
      rfl
    · rcases List.mem_singleton.mp h with rfl
      rfl
  · rw [hm, List.map_append]
    simp only [List.map_map, List.map_cons, List.map_nil]
    rw [show ((fun e : ℕ × ℕ × String => e.2.2) ∘
        fun p : ℕ × String => (p.1, symbols.length, p.2)) =
        (fun p : ℕ × String => p.2) from rfl]
    rw [show symbols.enum = symbols.enumFrom 0 from rfl, enumFrom_map_snd symbols 0]

/-- C6 counterexample: for the mock pipeline's put contract with strike
190 and lastPrice 6.25 the emitted `maxProfit` is strike − lastPrice =
183.75, not lastPrice × 100 = 625. -/
theorem C6_max_profit_counterexample :
    (processOptionDataMock 0
        ⟨"AAPL240816P00190000", 190, 0, .put, 6.25, 6, 6.5, 890, 3210, 0.30⟩
        185.5 "AAPL").maxProfit ≠ ((6.25 * 100 : ℝ) : EReal) := by
  simp only [processOptionDataMock]
  rw [ne_eq, EReal.coe_eq_coe_iff]
  norm_num

/-- C6 (amended): the fetch pipeline emits `maxProfit = lastPrice × 100`
for both option kinds, while the mock pipeline emits Infinity for calls
and strike − lastPrice for puts. -/
theorem C6_max_profit (now rand : ℝ) (raw : RawOptionData) (stockPrice : ℝ)
    (sym : String) :
    (processOptionDataFetch now rand raw stockPrice sym).maxProfit =
      ((raw.lastPrice * 100 : ℝ) : EReal) ∧
    (processOptionDataMock now raw stockPrice sym).maxProfit =
      (match raw.optionType with
        | .call => (⊤ : EReal)
        | .put => ((raw.strike - raw.lastPrice : ℝ) : EReal)) :=
  ⟨rfl, rfl⟩

/-- C8 counterexample: the mock pipeline classifies a call with strike
110 above the spot 100 (moneyness +10) as `speculative`, not
`covered-call`. -/
theorem C8_strategy_counterexample :
    (processOptionDataMock 0 ⟨"XC", 110, 0, .call, 1, 1, 1, 10, 100, 1⟩
        100 "X").strategyType = .speculative ∧
    StrategyType.speculative ≠ .coveredCall := by
  constructor
  · simp only [processOptionDataMock, getStrategyType, calculateMoneyness]
    norm_num
    exact fun h => nomatch h
  · decide

/-- C8 (amended): the fetch pipeline classifies purely by option kind
(call → covered-call, put → cash-secured-put) regardless of moneyness,
while the mock pipeline uses the moneyness-aware `getStrategyType`
(covered-call only for calls with negative moneyness, cash-secured-put
only for puts with positive moneyness, otherwise speculative). -/
theorem C8_strategy_classification (now rand : ℝ) (raw : RawOptionData)
    (stockPrice : ℝ) (sym : String) :
    (processOptionDataFetch now rand raw stockPrice sym).strategyType =
      (match raw.optionType with
        | .call => StrategyType.coveredCall
        | .put => StrategyType.cashSecuredPut) ∧
    (processOptionDataMock now raw stockPrice sym).strategyType =
      getStrategyType raw.optionType (calculateMoneyness stockPrice raw.strike) :=
  ⟨rfl, rfl⟩

/-- C9 counterexample: two fetch-pipeline analyses of the same contract,
spot, rate and timestamp but with different ambient `Math.random()` draws
(0 and 1/2) differ: the emitted `dataAge` is 0 in one and 2.5 in the
other, so the records are not identical. -/
theorem C9_determinism_counterexample :
    processOptionDataFetch 0 0 ⟨"X1", 100, 0, .call, 1, 1, 1, 10, 100, 1⟩ 100 "X" ≠
      processOptionDataFetch 0 (1/2) ⟨"X1", 100, 0, .call, 1, 1, 1, 10, 100, 1⟩
        100 "X" := by
  intro h
  have hd := congrArg OptionData.dataAge h
  simp only [processOptionDataFetch] at hd
  norm_num at hd

/-- C9 (amended): the mock pipeline is deterministic given `now` (its
`dataAge` is the constant 0), and two fetch-pipeline analyses on equal
inputs agree on every field except the randomly drawn `dataAge` and the
staleness flag derived from it. -/
theorem C9_determinism (now rand1 rand2 : ℝ) (raw : RawOptionData)
    (stockPrice : ℝ) (sym : String) :
    (processOptionDataMock now raw stockPrice sym).dataAge = 0 ∧
    processOptionDataFetch now rand2 raw stockPrice sym =
      { processOptionDataFetch now rand1 raw stockPrice sym with
          dataAge := rand2 * 5
          hasStaleDataWarning := rand2 * 5 > 15 } :=
  ⟨rfl, rfl⟩

/-- C10: no record emitted by either pipeline carries a stale-data
warning: the mock pipeline hardcodes it to false (also through the whole
mock orchestrator), and the fetch pipeline draws dataAge = rand·5 < 5
from a Math.random() value rand ∈ [0,1), far below the threshold 15. -/
theorem C10_no_stale_data_warning (now rand : ℝ) (raw : RawOptionData)
    (stockPrice : ℝ) (sym : String) (h0 : 0 ≤ rand) (h1 : rand < 1) :
    ¬ (processOptionDataMock now raw stockPrice sym).hasStaleDataWarning ∧
    ¬ (processOptionDataFetch now rand raw stockPrice sym).hasStaleDataWarning ∧
    (∀ E minEdge minVolume minPrice : ℝ, ∀ symbols : List String,
      ∀ o ∈ (searchOptionsDataMock E now minEdge minVolume minPrice symbols).1,
        ¬ o.hasStaleDataWarning) := by
  refine ⟨?_, ?_, ?_⟩
  · simp only [processOptionDataMock]
    exact fun h => h
  · simp only [processOptionDataFetch]
    intro h
    linarith
  · intro E minEdge minVolume minPrice symbols o ho
    simp only [searchOptionsDataMock] at ho
    have ho2 : o ∈ (searchLoopMock E now minEdge minVolume minPrice
        symbols.length 0 symbols).1 :=
      (List.mergeSort_perm _ _).mem_iff.mp ho
    rw [searchLoopMock_fst E now minEdge minVolume minPrice symbols.length symbols 0]
      at ho2
    obtain ⟨s, hs, hcs⟩ := List.mem_flatMap.mp ho2
    obtain ⟨sd, hsd, raw2, hraw2, rfl, -⟩ :=
      (mem_mockChunk E now minEdge minVolume minPrice s o).mp hcs
    simp only [processOptionDataMock]
    exact fun h => h

/-- Witness for C10 with draw 1/2 on a concrete contract. -/
theorem C10_no_stale_data_warning_witness :
    (0:ℝ) ≤ 1/2 ∧ (1/2 : ℝ) < 1 ∧
      ¬ (processOptionDataFetch 0 (1/2) ⟨"W", 100, 0, .call, 1, 1, 1, 10, 100, 1⟩
          100 "X").hasStaleDataWarning :=
  ⟨by norm_num, by norm_num,
    (C10_no_stale_data_warning 0 (1/2) ⟨"W", 100, 0, .call, 1, 1, 1, 10, 100, 1⟩
      100 "X" (by norm_num) (by norm_num)).2.1⟩

/-- The annualized-return rule exactly as the specification prescribes it
(for comparison against what the pipelines emit): annualizedReturn =
(maxProfit / collateralRequired) × (365 / daysToExpiration) × 100 with
daysToExpiration = timeToExpiration × 365, and 0 when daysToExpiration
is nonpositive. -/
def annualizedReturnSpecFormula (o : OptionData) : Prop :=
  ∀ m : ℝ, o.maxProfit = (m : EReal) →
    o.annualizedReturn =
      if o.timeToExpiration * 365 ≤ 0 then 0
      else (m / o.collateralRequired) * (365 / (o.timeToExpiration * 365)) * 100

/-- C7 (amended): the fetch pipeline emits exactly the specified
annualized return, while the mock pipeline instead emits the edge-based
quantity (edge/100)·(365/(tte·365)) (0 when tte ≤ 0). -/
theorem C7_annualized_return (now rand : ℝ) (raw : RawOptionData)
    (stockPrice : ℝ) (sym : String) :
    annualizedReturnSpecFormula (processOptionDataFetch now rand raw stockPrice sym) ∧
    (processOptionDataMock now raw stockPrice sym).annualizedReturn =
      (if calculateTimeToExpiration raw.expiration now ≤ 0 then 0
       else ((processOptionDataMock now raw stockPrice sym).edge / 100) *
         (365 / (calculateTimeToExpiration raw.expiration now * 365))) := by
  constructor
  · intro m hm
    simp only [processOptionDataFetch] at hm ⊢
    rw [EReal.coe_eq_coe_iff] at hm
    subst hm
    rcases le_or_lt (calculateTimeToExpiration raw.expiration now * 365) 0 with h | h
    · rw [if_neg (not_lt.mpr h), if_pos h]
    · rw [if_pos h, if_neg (not_le.mpr h)]
  · rfl

lemma putPrice_bounds_one :
    0 < (blackScholes 1 100 1 RISK_FREE_RATE 1).putPrice ∧
      (blackScholes 1 100 1 RISK_FREE_RATE 1).putPrice < 100 := by
  have hT' : ¬ (1:ℝ) ≤ 0 := by norm_num
  simp only [blackScholes, if_neg hT', RISK_FREE_RATE, Real.sqrt_one, mul_one, one_mul,
    div_one]
  have hL : Real.log (1/100 : ℝ) ≤ 0 :=
    Real.log_nonpos (by norm_num) (by norm_num)
  have harg : (0:ℝ) ≤ -(Real.log (1/100 : ℝ) + (45e-3 + 0.5) - 1) := by linarith
  have hN2 := half_le_normalCDF (-(Real.log (1/100 : ℝ) + (45e-3 + 0.5) - 1)) harg
  have hN2' := normalCDF_le_one (-(Real.log (1/100 : ℝ) + (45e-3 + 0.5) - 1))
  have hN2'' := normalCDF_nonneg (-(Real.log (1/100 : ℝ) + (45e-3 + 0.5) - 1))
  have hN1 := normalCDF_nonneg (-(Real.log (1/100 : ℝ) + (45e-3 + 0.5)))
  have hN1' := normalCDF_le_one (-(Real.log (1/100 : ℝ) + (45e-3 + 0.5)))
  have hexp_lo : (0.955:ℝ) ≤ Real.exp (-45e-3 : ℝ) := by
    have := Real.add_one_le_exp (-45e-3 : ℝ)
    linarith
  have hexp_hi : Real.exp (-45e-3 : ℝ) < 1 := Real.exp_lt_one_iff.mpr (by norm_num)
  have hexp_pos : (0:ℝ) < Real.exp (-45e-3 : ℝ) := Real.exp_pos _
  constructor
  · nlinarith [hN2, hN1', hexp_lo]
  · nlinarith [hN2', hN2'', hN1, hexp_hi, hexp_pos]

/-- C7 counterexample: for a put with strike = lastPrice = 100 on spot 1
expiring in exactly one year, the mock pipeline's emitted maxProfit is 0
so the claimed formula evaluates to 0, yet the emitted annualizedReturn
is edge/100 > 0 because the theoretical put price lies strictly between 0
and 100. -/
theorem C7_annualized_return_counterexample :
    ¬ annualizedReturnSpecFormula (processOptionDataMock 0
        ⟨"XP", 100, 31557600000, .put, 100, 1, 1, 10, 100, 1⟩ 1 "X") := by
  intro h
  have htte : calculateTimeToExpiration (31557600000:ℝ) 0 = 1 := by
    simp only [calculateTimeToExpiration]
    rw [show ((31557600000:ℝ) - 0) / (1000 * 60 * 60 * 24) / 365.25 = 1 by norm_num]
    exact max_eq_right zero_le_one
  have hmp : (processOptionDataMock 0
      ⟨"XP", 100, 31557600000, .put, 100, 1, 1, 10, 100, 1⟩ 1 "X").maxProfit =
      ((0:ℝ) : EReal) := by
    simp only [processOptionDataMock]
    rw [EReal.coe_eq_coe_iff]
    norm_num
  have h0 := h 0 hmp
  simp only [processOptionDataMock] at h0
  rw [htte] at h0
  rw [if_neg (by norm_num : ¬ (1:ℝ) * 365 ≤ 0)] at h0
  rw [zero_div, zero_mul, zero_mul] at h0
  simp only [calculateAnnualReturn] at h0
  rw [if_neg (by norm_num : ¬ (1:ℝ) ≤ 0)] at h0
  rw [show (365:ℝ) / (1 * 365) = 1 by norm_num, mul_one] at h0
  have hedge := (div_eq_zero_iff.mp h0).resolve_right (by norm_num)
  obtain ⟨hpos, hlt⟩ := putPrice_bounds_one
  simp only [calculateEdge] at hedge
  rw [if_neg (ne_of_gt hpos)] at hedge
  have hstrict : 0 < (100 - (blackScholes 1 100 1 RISK_FREE_RATE 1).putPrice) /
      (blackScholes 1 100 1 RISK_FREE_RATE 1).putPrice * 100 :=
    mul_pos (div_pos (by linarith) hpos) (by norm_num)
  linarith
